import Mathlib

/-!
Verification development for the nea_sg_weather integration
(custom_components/nea_sg_weather). The Python data-normalization layer is
shallowly embedded: JSON documents become the inductive type JVal, fallible
dictionary/list access becomes Except-valued lookups mirroring Python's
KeyError/IndexError/TypeError, and the dataset extraction methods of nea.py,
the coordinator loop of the package init module, and the rain-radar walk of
camera.py become Lean functions over that embedding.
-/

namespace NeaSgWeather

/-- A Python/JSON value as the upstream responses carry them: strings,
numbers (exact rationals stand in for Python floats), lists and dicts. -/
inductive JVal where
  | str (s : String)
  | num (q : ℚ)
  | arr (elems : List JVal)
  | obj (fields : List (String × JVal))

/-- The Python exceptions the embedded code can raise. -/
inductive PyErr where
  | keyError (key : String)
  | indexError
  | valueError (msg : String)
  | zeroDivisionError
  | typeError (msg : String)
deriving DecidableEq, Repr

instance {e a : Type} [DecidableEq e] [DecidableEq a] : DecidableEq (Except e a) :=
  fun x y =>
  match x, y with
  | .ok v, .ok w =>
    if h : v = w then isTrue (by rw [h]) else isFalse fun hh => h (Except.ok.inj hh)
  | .error v, .error w =>
    if h : v = w then isTrue (by rw [h]) else isFalse fun hh => h (Except.error.inj hh)
  | .ok _, .error _ => isFalse fun hh => Except.noConfusion hh
  | .error _, .ok _ => isFalse fun hh => Except.noConfusion hh

/-- Message text of an exception, as interpolated into the coordinator's
UpdateFailed message. -/
def pyErrMsg : PyErr → String
  | .keyError k => "KeyError: " ++ k
  | .indexError => "IndexError: list index out of range"
  | .valueError m => "ValueError: " ++ m
  | .zeroDivisionError => "ZeroDivisionError: division by zero"
  | .typeError m => "TypeError: " ++ m

/-- First-match lookup over a dict's field list. -/
def getKeyList : List (String × JVal) → String → Except PyErr JVal
  | [], k => .error (.keyError k)
  | (k', v) :: fs, k => if k' = k then .ok v else getKeyList fs k

/-- Python dict subscription d[k]: KeyError when the key is absent,
TypeError when the value is not a dict. Dicts built by this embedding
never carry duplicate keys, so first-match lookup is dict lookup. -/
def getKey : JVal → String → Except PyErr JVal
  | .obj fs, k => getKeyList fs k
  | _, k => .error (.typeError ("value is not subscriptable by key " ++ k))

/-- Python list subscription l[i] for a non-negative index: IndexError when
out of range, TypeError when the value is not a list. -/
def getIdx : JVal → Nat → Except PyErr JVal
  | .arr l, i =>
    match l[i]? with
    | some v => .ok v
    | none => .error .indexError
  | _, _ => .error (.typeError "value is not subscriptable by index")

/-- Iterating a value as a Python list; TypeError when it is not one. -/
def asArr : JVal → Except PyErr (List JVal)
  | .arr l => .ok l
  | _ => .error (.typeError "value is not iterable")

/-- Using a value where a string is required (dict key, hashable condition
code); non-strings are modelled as a TypeError. -/
def asStr : JVal → Except PyErr String
  | .str s => .ok s
  | _ => .error (.typeError "value is not a str")

/-- Using a value in arithmetic or an order comparison; non-numbers are
modelled as a TypeError. -/
def asNum : JVal → Except PyErr ℚ
  | .num q => .ok q
  | _ => .error (.typeError "value is not a number")

/-- Python truthiness of a JSON value: empty containers, the empty string
and zero are falsy. -/
def jTruthy : JVal → Bool
  | .str s => decide (s ≠ "")
  | .num q => decide (q ≠ 0)
  | .arr l => !l.isEmpty
  | .obj l => !l.isEmpty

/-- Sequential effectful map over a list, evaluated left to right exactly as
a Python list comprehension or for-loop: the first exception aborts the
whole traversal. -/
def mapE {α β : Type} (f : α → Except PyErr β) : List α → Except PyErr (List β)
  | [] => .ok []
  | a :: l => do
    let b ← f a
    let r ← mapE f l
    pure (b :: r)

/-- Python max(iterable, key=...): scans left to right keeping the current
maximum and replacing it only on a strictly greater key, so of several
maxima the first in iteration order is returned; none for an empty
iterable (Python raises ValueError there, handled at call sites). -/
def pyMax (key : String → ℕ) : List String → Option String
  | [] => none
  | x :: xs => some (xs.foldl (fun m y => if key m < key y then y else m) x)

/-- Python dict assignment d[k] = v on an association list: overwrite in
place when the key exists, append otherwise. -/
def dictInsert (m : List (String × String)) (k v : String) : List (String × String) :=
  if (m.lookup k).isSome then m.map (fun p => if p.1 = k then (k, v) else p)
  else m ++ [(k, v)]

/-- Python dict subscription on a string-to-string table, raising KeyError
when the key is absent. -/
def lookupOr (m : List (String × String)) (k : String) : Except PyErr String :=
  match m.lookup k with
  | some v => .ok v
  | none => .error (.keyError k)

/-- nea.py lines 147-150: the single current condition is Python
max(set(conds), key=conds.count). CPython iterates a set of strings in a
hash-dependent, unspecified order, so the computation is modelled with the
enumeration order of the set as an explicit parameter: any duplicate-free
reordering of the distinct conditions is a possible iteration order. -/
def most_common_condition (conds setOrder : List String) : Option String :=
  pyMax (fun c => conds.count c) setOrder

/-! ## Condition tables (const.py and weathersg.py) -/

/-- weathersg.py CODE_CONDITION_MAP: two-letter NEA code to normalized
condition keyword. -/
def CODE_CONDITION_MAP : List (String × String) :=
  [("BR", "fog"), ("CL", "cloudy"), ("DR", "drizzle"), ("FA", "sunny"),
   ("FG", "fog"), ("FN", "clear-night"), ("FW", "sunny"), ("HG", "lightning"),
   ("HR", "pouring"), ("HS", "pouring"), ("HT", "lightning"), ("HZ", "fog"),
   ("LH", "fog"), ("LR", "drizzle"), ("LS", "rainy"), ("OC", "cloudy"),
   ("PC", "partlycloudy"), ("PN", "partlycloudy-night"), ("PS", "rainy"),
   ("RA", "rainy"), ("SH", "rainy"), ("SK", "pouring"), ("SN", "snowy"),
   ("SR", "rain-wind"), ("SS", "snowy-rainy"), ("SU", "sunny"),
   ("SW", "windy"), ("TL", "lightning-rainy"), ("WC", "windy-variant"),
   ("WD", "windy"), ("WF", "windy"), ("WR", "rain-wind"), ("WS", "rain-wind")]

/-- weathersg.py CODE_DESCRIPTION_MAP: two-letter NEA code to display
description. -/
def CODE_DESCRIPTION_MAP : List (String × String) :=
  [("BR", "Mist"), ("CL", "Cloudy"), ("DR", "Drizzle"), ("FA", "Fair (Day)"),
   ("FG", "Fog"), ("FN", "Fair (Night)"), ("FW", "Fair & Warm"),
   ("HG", "Heavy Thundery Showers with Gusty Winds"), ("HR", "Heavy Rain"),
   ("HS", "Heavy Showers"), ("HT", "Heavy Thundery Showers"), ("HZ", "Hazy"),
   ("LH", "Slightly Hazy"), ("LR", "Light Rain"), ("LS", "Light Showers"),
   ("OC", "Overcast"), ("PC", "Partly Cloudy (Day)"),
   ("PN", "Partly Cloudy (Night)"), ("PS", "Passing Showers"),
   ("RA", "Moderate Rain"), ("SH", "Showers"), ("SK", "Strong Winds, Showers"),
   ("SN", "Snow"), ("SR", "Strong Winds, Rain"), ("SS", "Snow Showers"),
   ("SU", "Sunny"), ("SW", "Strong Winds"), ("TL", "Thundery Showers"),
   ("WC", "Windy, Cloudy"), ("WD", "Windy"), ("WF", "Windy, Fair"),
   ("WR", "Windy, Rain"), ("WS", "Windy, Showers")]

/-- const.py FORECAST_ICON_MAP_CONDITION: display description to two-letter
code, in source order. -/
def FORECAST_ICON_MAP_CONDITION : List (String × String) :=
  [("Mist", "BR"), ("Cloudy", "CL"), ("Drizzle", "DR"), ("Fair", "FA"),
   ("Fair (Day)", "FA"), ("Fog", "FG"), ("Fair (Night)", "FN"),
   ("Fair & Warm", "FW"), ("Heavy Thundery Showers with Gusty Winds", "HG"),
   ("Heavy Rain", "HR"), ("Heavy Showers", "HS"),
   ("Heavy Thundery Showers", "HT"), ("Hazy", "HZ"), ("Slightly Hazy", "LH"),
   ("Light Rain", "LR"), ("Light Showers", "LS"), ("Overcast", "OC"),
   ("Partly Cloudy", "PC"), ("Partly Cloudy (Day)", "PC"),
   ("Partly Cloudy (Night)", "PN"), ("Passing Showers", "PS"),
   ("Moderate Rain", "RA"), ("Showers", "SH"),
   ("Strong Winds, Showers", "SK"), ("Snow", "SN"),
   ("Strong Winds, Rain", "SR"), ("Snow Showers", "SS"), ("Sunny", "SU"),
   ("Strong Winds", "SW"), ("Thundery Showers", "TL"), ("Windy, Cloudy", "WC"),
   ("Windy", "WD"), ("Windy, Fair", "WF"), ("Windy, Rain", "WR"),
   ("Windy, Showers", "WS")]

/-- nea.py lines 31-35: the inverse icon map is built by assigning
INV[code] := description over zip(values, keys) of
FORECAST_ICON_MAP_CONDITION, so for a code with several descriptions the
last description in table order wins. -/
def INV_FORECAST_ICON_MAP_CONDITION : List (String × String) :=
  FORECAST_ICON_MAP_CONDITION.foldl (fun m p => dictInsert m p.2 p.1) []

/-- const.py FORECAST_MAP_CONDITION: ordered substring keywords matched
against the lowercased 4-day forecast description; values are the
Home Assistant ATTR_CONDITION_* constant strings. -/
def FORECAST_MAP_CONDITION : List (String × String) :=
  [("thundery showers", "lightning-rainy"), ("partly cloudy", "partlycloudy"),
   ("rain", "rainy"), ("showers", "rainy"), ("fair", "sunny"),
   ("hazy", "fog"), ("cloudy", "cloudy"), ("overcast", "cloudy"),
   ("windy", "windy")]

/-! ## list_mean (nea.py lines 40-48) -/

/-- Python round(x, 2) in exact rational arithmetic: round half to even at
two decimal places. Binary floating-point representation effects of the
CPython builtin are not modelled. -/
def round2 (q : ℚ) : ℚ :=
  let x := q * 100
  let f : ℤ := x.floor
  let r := x - (f : ℚ)
  let n : ℤ :=
    if 1 / 2 < r then f + 1
    else if r < 1 / 2 then f
    else if f % 2 = 0 then f else f + 1
  (n : ℚ) / 100

/-- The accumulation loop of list_mean: for each reading dict, look up its
"value"; readings with value > 0 enter the running sum and count. -/
def listMeanLoop : List JVal → ℚ → ℕ → Except PyErr (ℚ × ℕ)
  | [], s, i => .ok (s, i)
  | v :: rest, s, i => do
    let x ← getKey v "value"
    let q ← asNum x
    if 0 < q then listMeanLoop rest (s + q) (i + 1) else listMeanLoop rest s i

/-- nea.py list_mean: mean of the positive reading values, rounded to two
decimals. With zero qualifying readings the division sum_values / i is a
Python ZeroDivisionError, modelled as the error result. -/
def list_mean (values : List JVal) : Except PyErr ℚ := do
  let (s, i) ← listMeanLoop values 0 0
  if i = 0 then .error .zeroDivisionError else .ok (round2 (s / (i : ℚ)))

/-! ## Wind aggregation (nea.py Wind.calc_wind_status, lines 470-504) -/

/-- One station reading as consumed by calc_wind_status. -/
structure WindReading where
  station_id : String
  value : ℚ
deriving DecidableEq, Repr

/-- math.radians. -/
noncomputable def radians (x : ℝ) : ℝ := x * Real.pi / 180

/-- math.degrees. -/
noncomputable def degrees (x : ℝ) : ℝ := x * 180 / Real.pi

/-- math.atan2 y x, the argument of the complex number x + y*i in
(-pi, pi]. -/
noncomputable def atan2 (y x : ℝ) : ℝ := Complex.arg (Complex.mk x y)

/-- The (speed, direction) pairs accumulated by the nested loop of
calc_wind_status: for every speed reading, every direction reading with
the same station_id, in loop order. -/
def matchedPairs (wind_speed wind_direction : List WindReading) :
    List (WindReading × WindReading) :=
  wind_speed.flatMap fun s =>
    (wind_direction.filter fun d => s.station_id == d.station_id).map fun d => (s, d)

/-- The result dict of calc_wind_status. -/
structure WindStatus where
  ns_sum : ℝ
  ns_avg : ℝ
  ew_sum : ℝ
  ew_avg : ℝ
  readings_used : ℕ
  agg_wind_speed : ℝ
  agg_wind_direction : ℝ

/-- nea.py Wind.calc_wind_status: decompose each matched speed reading
along the reciprocal bearing (direction + 180 degrees), average the
north-south and east-west components over the matched-pair count, and
recombine into a magnitude and a bearing normalized by adding 360 once
when negative. With zero matched pairs the division ns_sum / readings_used
is a Python ZeroDivisionError, modelled as the error result. -/
noncomputable def calc_wind_status (wind_speed wind_direction : List WindReading) :
    Except PyErr WindStatus :=
  let pairs := matchedPairs wind_speed wind_direction
  let nsSum : ℝ :=
    (pairs.map fun p => (p.1.value : ℝ) * Real.cos (radians ((p.2.value : ℝ) + 180))).sum
  let ewSum : ℝ :=
    (pairs.map fun p => (p.1.value : ℝ) * Real.sin (radians ((p.2.value : ℝ) + 180))).sum
  if pairs.length = 0 then .error .zeroDivisionError
  else
    let nsAvg := nsSum / (pairs.length : ℝ)
    let ewAvg := ewSum / (pairs.length : ℝ)
    let speed := Real.sqrt (nsAvg ^ 2 + ewAvg ^ 2)
    let dir0 := degrees (atan2 ewAvg nsAvg)
    let dir := if dir0 < 0 then dir0 + 360 else dir0
    .ok ⟨nsSum, nsAvg, ewSum, ewAvg, pairs.length, speed, dir⟩

/-! ## Rain dataset (nea.py Rain.process_data, lines 521-552) -/

/-- One entry of the RAIN_SENSOR_LIST station enumeration (id, name,
location). The concrete constant lives in a const.py revision not present
here, so definitions and theorems are parameterized by the enumeration. -/
structure RainStation where
  id : String
  name : String
  location : JVal

/-- One upstream rainfall reading. -/
structure RainReading where
  station_id : String
  value : ℚ

/-- The per-station dict value stored by Rain.process_data. -/
structure RainEntry where
  value : ℚ
  name : String
  location : JVal

/-- nea.py Rain.process_data, per-station part: for every station of the
fixed enumeration, take the value of the first upstream reading with that
station_id (the source computes _current_station_list.index(station_id)
and reads resp_data at that index, which is exactly the first matching
reading); the ValueError of a missing station is caught and the value is
set to 0 with the station's own name and location. -/
def Rain.process_data (station_list : List RainStation) (resp_data : List RainReading) :
    List (String × RainEntry) :=
  station_list.map fun st =>
    match resp_data.find? (fun r => r.station_id == st.id) with
    | some r => (st.id, ⟨r.value, st.name, st.location⟩)
    | none => (st.id, ⟨0, st.name, st.location⟩)

/-! ## 24-hour forecast period labels (nea.py lines 220-234) -/

/-- The time-of-day classifier of Forecast24hr.process_data: exact-hour
match on the period's local start hour. -/
def timeOfDay (hour : ℕ) : String :=
  if hour = 6 then "morning" else if hour = 12 then "afternoon" else "evening"

/-- The full period label: "Today "/"Tomorrow " (start date equal to the
current local date or not) followed by the time-of-day bucket. -/
def periodLabel (sameDate : Bool) (hour : ℕ) : String :=
  (if sameDate then "Today " else "Tomorrow ") ++ timeOfDay hour

/-! ## 4-day forecast extraction (nea.py Forecast4day.process_data,
lines 276-295) -/

/-- Python str.lower() implemented over the character list (the kernel
cannot reduce String.toLower's byte-position recursion; on the ASCII
descriptions involved this is the same function). -/
def strLower (s : String) : String := String.mk (s.data.map Char.toLower)

/-- Whether the list of characters pre is a prefix of the second list. -/
def prefixB : List Char → List Char → Bool
  | [], _ => true
  | _ :: _, [] => false
  | a :: asx, b :: bs => a == b && prefixB asx bs

/-- Whether needle occurs as a contiguous sublist of hay: the Python
substring test needle in hay. -/
def subListB (needle : List Char) : List Char → Bool
  | [] => needle.isEmpty
  | c :: t => prefixB needle (c :: t) || subListB needle t

/-- Python needle in hay on strings. -/
def substrB (needle hay : String) : Bool :=
  subListB needle.toList hay.toList

/-- nea.py Forecast4day.process_data: for each upstream forecast entry,
scan FORECAST_MAP_CONDITION in table order; the first keyword contained in
the lowercased description wins and one output dict (Home Assistant
ATTR_FORECAST_* keys) is appended, then the inner loop breaks; an entry
matching no keyword appends nothing and raises nothing. -/
def Forecast4day.process_data : List JVal → Except PyErr (List JVal)
  | [] => .ok []
  | entry :: rest =>
    let tail := Forecast4day.process_data rest
    do
    let fV ← getKey entry "forecast"
    let f ← asStr fV
    match FORECAST_MAP_CONDITION.find? (fun p => substrB p.1 (strLower f)) with
    | some kc => do
      let ts ← getKey entry "timestamp"
      let temp ← getKey entry "temperature"
      let hi ← getKey temp "high"
      let lo ← getKey temp "low"
      let wind ← getKey entry "wind"
      let spd ← getKey wind "speed"
      let spdHi ← getKey spd "high"
      let dir ← getKey wind "direction"
      let out := JVal.obj
        [("datetime", ts), ("temperature", hi), ("templow", lo),
         ("wind_speed", spdHi), ("wind_bearing", dir),
         ("condition", JVal.str kc.2)]
      let rest2 ← tail
      pure (out :: rest2)
    | none => tail

/-- Whether an entry's description matches at least one keyword of the
condition table (its "forecast" field exists, is a string, and contains
some keyword). -/
def entryMatches (entry : JVal) : Bool :=
  match getKey entry "forecast" with
  | .ok (.str f) => FORECAST_MAP_CONDITION.any fun p => substrB p.1 (strLower f)
  | _ => false

/-! ## Rain-radar tile walk (camera.py NeaRainCamera.async_camera_image,
lines 105-191) -/

/-- Outcome of one radar-tile HTTP request: the decoded body on 2xx, the
status code when raise_for_status raised HTTPStatusError, or a timeout. -/
inductive TileResp where
  | ok (content : String)
  | httpError (status : ℤ)
  | timeout
deriving DecidableEq, Repr

/-- The mutable camera state the walk consults: the bucket of the last
successfully fetched tile and its cached bytes. -/
structure CameraState where
  lastImageTime : Option ℤ
  lastImage : Option String
deriving DecidableEq, Repr

/-- The skip applied to a bucket that 404s: 45 when the YYYYMMDDHHMM
integer ends in "00" (a whole hour, where the tile numbering has its
irregular step), else 5. The source tests str(current_image_time)[-2:],
which over the well-formed 12-digit bucket ids equals t % 100 = 0. -/
def skip_minutes (t : ℤ) : ℤ := if t % 100 = 0 then 45 else 5

/-- camera.py get_image: request the tile for bucket t; cache and return
its bytes on success; return the cached bytes on timeout or a non-404
HTTP error; on 404 either return the cached bytes (when the next bucket
back equals the cached bucket) or recurse on the earlier bucket. The fuel
argument bounds the recursion depth exactly as CPython's recursion limit
does; .error () is the unmodelled RecursionError and is never reached in
the theorems below. -/
def get_image (fetch : ℤ → TileResp) (st : CameraState) : ℕ → ℤ → Except Unit (Option String)
  | 0, _ => .error ()
  | fuel + 1, t =>
    match fetch t with
    | .ok content => .ok (some content)
    | .timeout => .ok st.lastImage
    | .httpError status =>
      if status = 404 then
        if some (t - skip_minutes t) = st.lastImageTime then .ok st.lastImage
        else get_image fetch st fuel (t - skip_minutes t)
      else .ok st.lastImage

/-! ## Source selection and the update cycle (nea.py NeaData.async_init and
the package init module) -/

/-- nea.py NeaData.async_init line 72: the published response is _resp when
_resp2 is falsy, else _resp2 — one payload wholesale, never a merge. -/
def NeaData.response (resp resp2 : JVal) : JVal :=
  if jTruthy resp2 then resp2 else resp

/-- NeaWeatherData.async_update's fetch loop: each data object's
async_init is awaited in turn and its name recorded; an exception raised
by any extraction aborts the loop at that object and propagates, so no
consolidated response is assembled for the cycle. -/
def asyncUpdateLoop : List (String × Except PyErr Unit) → Except PyErr (List String)
  | [] => .ok []
  | (name, r) :: rest => do
    let _ ← r
    let others ← asyncUpdateLoop rest
    pure (name :: others)

/-- The coordinator's UpdateFailed signal (the one failure Home Assistant's
DataUpdateCoordinator accepts across its boundary). -/
structure UpdateFailed where
  msg : String
deriving DecidableEq, Repr

/-- NeaWeatherDataUpdateCoordinator._async_update_data (package init
module, lines 117-123): any exception from the update cycle is caught and
re-raised as UpdateFailed("Update failed: ..."), the coordinator's only
outward failure mode. -/
def coordinatorUpdate (objs : List (String × Except PyErr Unit)) :
    Except UpdateFailed (List String) :=
  match asyncUpdateLoop objs with
  | .ok names => .ok names
  | .error e => .error ⟨"Update failed: " ++ pyErrMsg e⟩

/-! ## 2-hour forecast extraction (nea.py Forecast2hr, lines 137-197) and
the secondary-source simulation (weathersg.py API.gen_2_hour_weather_forecast) -/

/-- The fields Forecast2hr.process_data / process_secondary_data populate.
The area_forecast dict keeps its JVal keys and values; on the primary path
each value is a dict with "forecast" and "location", on the secondary path
a bare condition-description string. For the secondary path the timestamp
field carries the raw ForecastIssue DateTimeStr: the strptime/isoformat
conversions of both paths are not modelled and no theorem below depends on
the timestamp value. -/
structure Forecast2hrResult where
  timestamp : JVal
  current_condition : String
  area_forecast : List (JVal × JVal)

/-- The dict comprehension of nea.py lines 153-162 building area_forecast:
for i in range(len(forecasts)), key forecasts[i]["area"], value a dict of
the entry's "forecast" and metadata[i]["label_location"] latitude and
longitude. The index into the metadata list is threaded explicitly. -/
def buildAreaForecast (metadata : JVal) : List JVal → ℕ → Except PyErr (List (JVal × JVal))
  | [], _ => .ok []
  | f :: fs, i => do
    let area ← getKey f "area"
    let fc ← getKey f "forecast"
    let md ← getIdx metadata i
    let loc ← getKey md "label_location"
    let lat ← getKey loc "latitude"
    let lon ← getKey loc "longitude"
    let rest ← buildAreaForecast metadata fs (i + 1)
    pure ((area,
      JVal.obj [("forecast", fc),
        ("location", JVal.obj [("latitude", lat), ("longitude", lon)])]) :: rest)

/-- nea.py Forecast2hr.process_data (lines 137-165), the primary-shaped
extraction: timestamp and area_metadata, the most common condition over
the per-area forecast strings (Python max over set(...) keyed by count;
the set's iteration order is determinized here to List.dedup, which no
theorem below depends on — claim C7 treats the order as unspecified), and
the area -> forecast/location map. -/
def Forecast2hr.process_data (resp : JVal) : Except PyErr Forecast2hrResult := do
  let items ← getKey resp "items"
  let item0 ← getIdx items 0
  let ts ← getKey item0 "timestamp"
  let metadata ← getKey resp "area_metadata"
  let forecastsV ← getKey item0 "forecasts"
  let forecastsL ← asArr forecastsV
  let condJs ← mapE (fun it => getKey it "forecast") forecastsL
  let conds ← mapE asStr condJs
  let current ←
    match pyMax (fun c => conds.count c) conds.dedup with
    | some c => Except.ok c
    | none => Except.error (.valueError "max() arg is an empty sequence")
  let af ← buildAreaForecast metadata forecastsL 0
  pure ⟨ts, current, af⟩

/-- nea.py Forecast2hr.process_secondary_data (lines 167-197): the scraped
document's Channel2HrForecast is read; the most common condition is voted
over the INV_FORECAST_ICON_MAP_CONDITION translations of each area's
two-letter code, and area_forecast maps each area Name directly to its
translated condition-description string (no location data). The timestamp
field carries the raw DateTimeStr (the hard-coded year-2022 strptime is
not modelled). -/
def Forecast2hr.process_secondary_data (resp2 : JVal) : Except PyErr Forecast2hrResult := do
  let ch ← getKey resp2 "Channel2HrForecast"
  let item ← getKey ch "Item"
  let fi ← getKey item "ForecastIssue"
  let dts ← getKey fi "DateTimeStr"
  let wf ← getKey item "WeatherForecast"
  let areaV ← getKey wf "Area"
  let areaL ← asArr areaV
  let conds ← mapE (fun a => do
    let f ← getKey a "Forecast"
    let fs ← asStr f
    lookupOr INV_FORECAST_ICON_MAP_CONDITION fs) areaL
  let current ←
    match pyMax (fun c => conds.count c) conds.dedup with
    | some c => Except.ok c
    | none => Except.error (.valueError "max() arg is an empty sequence")
  let af ← mapE (fun a => do
    let n ← getKey a "Name"
    let f ← getKey a "Forecast"
    let fs ← asStr f
    let c ← lookupOr INV_FORECAST_ICON_MAP_CONDITION fs
    pure (n, JVal.str c)) areaL
  pure ⟨dts, current, af⟩

/-- One entry of weathersg.py Weather.Area.all, as built from a scraped
Area record: its Name, Lat and Lon values, the two-letter Forecast code
and the code's normalized condition keyword. -/
structure AreaAll where
  name : JVal
  lat : JVal
  lon : JVal
  code : String
  condition : String

/-- weathersg.py Weather.Area, per-entry part: read Name, Lat, Lon and
Forecast and translate the code through CODE_CONDITION_MAP (KeyError on an
unknown code). -/
def mkAreaAll (a : JVal) : Except PyErr AreaAll := do
  let name ← getKey a "Name"
  let lat ← getKey a "Lat"
  let lon ← getKey a "Lon"
  let codeJ ← getKey a "Forecast"
  let code ← asStr codeJ
  let cond ← lookupOr CODE_CONDITION_MAP code
  pure ⟨name, lat, lon, code, cond⟩

/-- weathersg.py API.gen_2_hour_weather_forecast, fed the scraped
Channel2HrForecast document ch: simulate the primary API's JSON shape. The
Weather.Area subobject is built from the same document (its LocationName
per-area pass and its per-area Name/Lat/Lon/Forecast reads), then the
generator emits one area_metadata entry and one forecasts entry per area,
the latter's description translated through CODE_DESCRIPTION_MAP. The
dateutil parse/strftime of the issue time and of ValidTime are not
modelled: the raw DateTimeStr and ValidTime values are carried through;
no theorem below depends on them. -/
def gen_2_hour_weather_forecast (ch : JVal) : Except PyErr JVal := do
  let item ← getKey ch "Item"
  let fi ← getKey item "ForecastIssue"
  let dts ← getKey fi "DateTimeStr"
  let wf ← getKey item "WeatherForecast"
  let areaV ← getKey wf "Area"
  let areaL ← asArr areaV
  let _locNames ← mapE (fun a => getKey a "LocationName") areaL
  let allEntries ← mapE mkAreaAll areaL
  let vt ← getKey item "ValidTime"
  let fEntries ← mapE (fun e => do
    let d ← lookupOr CODE_DESCRIPTION_MAP e.code
    pure (JVal.obj [("area", e.name), ("forecast", JVal.str d)])) allEntries
  let mEntries := allEntries.map fun e =>
    JVal.obj [("name", e.name),
      ("label_location", JVal.obj [("latitude", e.lat), ("longitude", e.lon)])]
  pure (JVal.obj
    [("api_info", JVal.obj [("status", JVal.str "healthy")]),
     ("area_metadata", JVal.arr mEntries),
     ("items", JVal.arr
       [JVal.obj
         [("update_timestamp", dts), ("timestamp", dts),
          ("valid_period", vt), ("forecasts", JVal.arr fEntries)]])])

/-- nea.py Temperature.process_data (lines 346-354): the items[0]
timestamp and the list_mean of the readings. -/
def Temperature.process_data (resp : JVal) : Except PyErr (JVal × ℚ) := do
  let items ← getKey resp "items"
  let item0 ← getIdx items 0
  let ts ← getKey item0 "timestamp"
  let readingsV ← getKey item0 "readings"
  let readingsL ← asArr readingsV
  let avg ← list_mean readingsL
  pure (ts, avg)


/-! ## Boolean equality checkers (kernel-evaluable equality tests used to
settle closed computations over JVal by decide; the fuel argument makes
the recursion structural and hence reducible, and is irrelevant as long as
it is large enough for the values at hand) -/

/-- Structural equality test on JVal, recursing on fuel. -/
def beqJF : ℕ → JVal → JVal → Bool
  | 0, _, _ => false
  | _ + 1, .str a, .str b => a == b
  | _ + 1, .num a, .num b => a == b
  | _ + 1, .arr [], .arr [] => true
  | f + 1, .arr (a :: t1), .arr (b :: t2) => beqJF f a b && beqJF f (.arr t1) (.arr t2)
  | _ + 1, .obj [], .obj [] => true
  | f + 1, .obj ((k1, v1) :: t1), .obj ((k2, v2) :: t2) =>
    k1 == k2 && beqJF f v1 v2 && beqJF f (.obj t1) (.obj t2)
  | _ + 1, _, _ => false

/-- Structural equality test on lists of JVal. -/
def beqLJ (f : ℕ) : List JVal → List JVal → Bool
  | [], [] => true
  | a :: t1, b :: t2 => beqJF f a b && beqLJ f t1 t2
  | _, _ => false

/-- Structural equality test on lists of JVal pairs. -/
def beqPJ (f : ℕ) : List (JVal × JVal) → List (JVal × JVal) → Bool
  | [], [] => true
  | (a1, b1) :: t1, (a2, b2) :: t2 => beqJF f a1 a2 && beqJF f b1 b2 && beqPJ f t1 t2
  | _, _ => false

/-- Structural equality test on Except results. -/
def beqE {α : Type} (beqA : α → α → Bool) : Except PyErr α → Except PyErr α → Bool
  | .ok a, .ok b => beqA a b
  | .error e1, .error e2 => e1 == e2
  | _, _ => false

/-- Structural equality test on Forecast2hrResult. -/
def beqF2R (f : ℕ) (r1 r2 : Forecast2hrResult) : Bool :=
  beqJF f r1.timestamp r2.timestamp && r1.current_condition == r2.current_condition &&
    beqPJ f r1.area_forecast r2.area_forecast

/-! ## Generic lemmas about the embedding -/

theorem beqJF_sound : ∀ (f : ℕ) (a b : JVal), beqJF f a b = true → a = b := by
  intro f
  induction f with
  | zero => intro a b h; simp [beqJF] at h
  | succ f ih =>
    intro a b h
    cases a with
    | str a =>
      cases b <;> simp [beqJF] at h
      rw [h]
    | num a =>
      cases b <;> simp [beqJF] at h
      rw [h]
    | arr l1 =>
      cases b with
      | arr l2 =>
        cases l1 with
        | nil => cases l2 with
          | nil => rfl
          | cons y t2 => simp [beqJF] at h
        | cons x t1 => cases l2 with
          | nil => simp [beqJF] at h
          | cons y t2 =>
            have hh : beqJF f x y = true ∧ beqJF f (.arr t1) (.arr t2) = true := by
              simpa [beqJF] using h
            have h2 := ih _ _ hh.2
            rw [ih _ _ hh.1, JVal.arr.inj h2]
      | str _ => simp [beqJF] at h
      | num _ => simp [beqJF] at h
      | obj _ => cases l1 <;> simp [beqJF] at h
    | obj l1 =>
      cases b with
      | obj l2 =>
        cases l1 with
        | nil => cases l2 with
          | nil => rfl
          | cons y t2 => simp [beqJF] at h
        | cons x t1 => cases l2 with
          | nil => simp [beqJF] at h
          | cons y t2 =>
            obtain ⟨k1, v1⟩ := x
            obtain ⟨k2, v2⟩ := y
            have hh : (k1 = k2 ∧ beqJF f v1 v2 = true) ∧
                beqJF f (.obj t1) (.obj t2) = true := by
              simpa [beqJF] using h
            have h2 := ih _ _ hh.2
            rw [hh.1.1, ih _ _ hh.1.2, JVal.obj.inj h2]
      | str _ => simp [beqJF] at h
      | num _ => simp [beqJF] at h
      | arr _ => cases l1 <;> simp [beqJF] at h

theorem beqLJ_sound (f : ℕ) : ∀ a b : List JVal, beqLJ f a b = true → a = b
  | [], [], _ => rfl
  | a :: t1, b :: t2, h => by
    have hh : beqJF f a b = true ∧ beqLJ f t1 t2 = true := by simpa [beqLJ] using h
    rw [beqJF_sound f a b hh.1, beqLJ_sound f t1 t2 hh.2]
  | [], _ :: _, h => by simp [beqLJ] at h
  | _ :: _, [], h => by simp [beqLJ] at h

theorem beqPJ_sound (f : ℕ) : ∀ a b : List (JVal × JVal), beqPJ f a b = true → a = b
  | [], [], _ => rfl
  | (a1, b1) :: t1, (a2, b2) :: t2, h => by
    have hh : (beqJF f a1 a2 = true ∧ beqJF f b1 b2 = true) ∧
        beqPJ f t1 t2 = true := by simpa [beqPJ] using h
    rw [beqJF_sound f a1 a2 hh.1.1, beqJF_sound f b1 b2 hh.1.2,
      beqPJ_sound f t1 t2 hh.2]
  | [], _ :: _, h => by simp [beqPJ] at h
  | _ :: _, [], h => by simp [beqPJ] at h

theorem beqE_sound {α : Type} {beqA : α → α → Bool}
    (hA : ∀ a b : α, beqA a b = true → a = b) :
    ∀ x y : Except PyErr α, beqE beqA x y = true → x = y
  | .ok a, .ok b, h => by rw [hA a b (by simpa [beqE] using h)]
  | .error e1, .error e2, h => by
    have : e1 = e2 := by simpa [beqE] using h
    rw [this]
  | .ok _, .error _, h => by simp [beqE] at h
  | .error _, .ok _, h => by simp [beqE] at h

theorem beqF2R_sound (f : ℕ) (r1 r2 : Forecast2hrResult) (h : beqF2R f r1 r2 = true) :
    r1 = r2 := by
  obtain ⟨t1, c1, a1⟩ := r1
  obtain ⟨t2, c2, a2⟩ := r2
  have hh : (beqJF f t1 t2 = true ∧ c1 = c2) ∧ beqPJ f a1 a2 = true := by
    simpa [beqF2R] using h
  rw [beqJF_sound f t1 t2 hh.1.1, hh.1.2, beqPJ_sound f a1 a2 hh.2]




theorem bind_ok {α β : Type} {e : Except PyErr α} {f : α → Except PyErr β} {b : β} :
    (e >>= f) = .ok b ↔ ∃ a, e = .ok a ∧ f a = .ok b := by
  cases e <;> simp [Bind.bind, Except.bind]

theorem pure_ok {α : Type} {a b : α} :
    (pure a : Except PyErr α) = .ok b ↔ b = a := by
  constructor
  · intro h
    cases h
    rfl
  · intro h
    cases h
    rfl

theorem mapE_ok_forall2 {α β : Type} {f : α → Except PyErr β} :
    ∀ {l : List α} {r : List β}, mapE f l = .ok r →
      List.Forall₂ (fun a b => f a = .ok b) l r := by
  intro l
  induction l with
  | nil =>
    intro r h
    cases h
    exact List.Forall₂.nil
  | cons a t ih =>
    intro r h
    rw [mapE, bind_ok] at h
    obtain ⟨b, hb, h⟩ := h
    rw [bind_ok] at h
    obtain ⟨bs, hbs, h⟩ := h
    rw [pure_ok] at h
    subst h
    exact List.Forall₂.cons hb (ih hbs)

theorem lookup_mem {k v : String} :
    ∀ {m : List (String × String)}, m.lookup k = some v → (k, v) ∈ m := by
  intro m
  induction m with
  | nil => intro h; cases h
  | cons p t ih =>
    intro h
    rw [List.lookup] at h
    by_cases hk : (k == p.1) = true
    · simp only [hk] at h
      have hk2 : k = p.1 := by simpa using hk
      cases h
      subst hk2
      exact List.mem_cons_self _ _
    · simp only [Bool.not_eq_true] at hk
      simp only [hk] at h
      exact List.mem_cons_of_mem p (ih h)

/-! ## Claim C9: the 24-hour-forecast time-of-day classifier -/

/-- Claim C9: for every 24-hour-forecast period, the label's time-of-day
part is "morning" exactly when the period's local start hour is 6,
"afternoon" exactly when it is 12, and "evening" for every other hour
value — the classifier is exact-hour-match, not range-based, so hour 13
(and any hour other than 6 or 12) classifies as "evening". -/
theorem claim_C9 (hour : ℕ) :
    (timeOfDay hour = "morning" ↔ hour = 6) ∧
    (timeOfDay hour = "afternoon" ↔ hour = 12) ∧
    (hour ≠ 6 → hour ≠ 12 → timeOfDay hour = "evening") ∧
    timeOfDay 13 = "evening" := by
  unfold timeOfDay
  rcases eq_or_ne hour 6 with h6 | h6 <;> rcases eq_or_ne hour 12 with h12 | h12 <;>
    simp_all

/-- Witness for C9 at hour 13. -/
theorem claim_C9_witness :
    (timeOfDay 13 = "morning" ↔ (13 : ℕ) = 6) ∧
    (timeOfDay 13 = "afternoon" ↔ (13 : ℕ) = 12) ∧
    ((13 : ℕ) ≠ 6 → (13 : ℕ) ≠ 12 → timeOfDay 13 = "evening") ∧
    timeOfDay 13 = "evening" :=
  claim_C9 13

/-! ## Claim C5: whole-payload source selection -/

/-- Claim C5: the published response of a data object is populated wholly
from one source — it is either exactly the primary payload or exactly the
secondary payload, never a field-level merge — and whenever the secondary
payload is present (non-empty, i.e. the fallback fetch ran because the
primary was judged insufficient) the entire dataset comes from the
secondary payload and the primary payload is discarded. With no secondary
payload (the initial empty dict) the primary payload is used unchanged. -/
theorem claim_C5 (resp resp2 : JVal) :
    (NeaData.response resp resp2 = resp ∨ NeaData.response resp resp2 = resp2) ∧
    (jTruthy resp2 = true → NeaData.response resp resp2 = resp2) ∧
    NeaData.response resp (JVal.obj []) = resp := by
  refine ⟨?_, fun ht => ?_, rfl⟩
  · unfold NeaData.response
    by_cases ht : jTruthy resp2 <;> simp [ht]
  · unfold NeaData.response
    simp [ht]

/-! ## Claim C8: the rain-radar backward walk -/

/-- Claim C8: in the rain-radar resolver, a successful fetch returns the
new tile and stops the walk; a timeout or a non-404 HTTP error terminates
the walk immediately with the cached bytes; a 404 retries the bucket 5
minutes back (45 when the failing bucket falls on a whole hour), returning
the cached bytes as soon as the next bucket to try equals the previously
cached bucket; and on the spec's concrete example, bucket 202401011000
404s, bucket 202401010955 succeeds and its tile is returned with no
further backward probing. -/
theorem claim_C8 :
    (∀ fetch st fuel t c, fetch t = .ok c →
      get_image fetch st (fuel + 1) t = .ok (some c)) ∧
    (∀ fetch st fuel t, fetch t = .timeout →
      get_image fetch st (fuel + 1) t = .ok st.lastImage) ∧
    (∀ fetch st fuel t s, fetch t = .httpError s → s ≠ 404 →
      get_image fetch st (fuel + 1) t = .ok st.lastImage) ∧
    (∀ fetch st fuel t, fetch t = .httpError 404 →
      some (t - skip_minutes t) = st.lastImageTime →
      get_image fetch st (fuel + 1) t = .ok st.lastImage) ∧
    (∀ fetch st fuel t, fetch t = .httpError 404 →
      some (t - skip_minutes t) ≠ st.lastImageTime →
      get_image fetch st (fuel + 1) t = get_image fetch st fuel (t - skip_minutes t)) ∧
    get_image
      (fun t => if t = 202401011000 then .httpError 404
        else if t = 202401010955 then .ok "tile0955" else .httpError 404)
      ⟨none, none⟩ 3 202401011000 = .ok (some "tile0955") := by
  refine ⟨?_, ?_, ?_, ?_, ?_, ?_⟩
  · intro fetch st fuel t c h
    simp [get_image, h]
  · intro fetch st fuel t h
    simp [get_image, h]
  · intro fetch st fuel t s h hs
    simp [get_image, h, hs]
  · intro fetch st fuel t h hc
    simp [get_image, h, hc]
  · intro fetch st fuel t h hc
    simp [get_image, h, hc]
  · rfl

/-! ## Claim C3: zero-overlap aggregation and zero-qualifying averaging -/

theorem matchedPairs_nil {ws wd : List WindReading}
    (h : ∀ s ∈ ws, ∀ d ∈ wd, s.station_id ≠ d.station_id) :
    matchedPairs ws wd = [] := by
  unfold matchedPairs
  rw [List.flatMap_eq_nil_iff]
  intro s hs
  rw [List.map_eq_nil_iff, List.filter_eq_nil_iff]
  intro d hd
  simpa using h s hs d hd

theorem listMeanLoop_nonpos {vlist : List ℚ} (h : ∀ q ∈ vlist, q ≤ 0) :
    ∀ s i, listMeanLoop (vlist.map fun q => JVal.obj [("value", JVal.num q)]) s i =
      .ok (s, i) := by
  induction vlist with
  | nil => intro s i; rfl
  | cons q t ih =>
    intro s i
    have hq : ¬(0 < q) := not_lt.mpr (h q (List.mem_cons_self q t))
    have hstep :
        listMeanLoop ((q :: t).map fun q => JVal.obj [("value", JVal.num q)]) s i =
          if 0 < q then
            listMeanLoop (t.map fun q => JVal.obj [("value", JVal.num q)]) (s + q) (i + 1)
          else listMeanLoop (t.map fun q => JVal.obj [("value", JVal.num q)]) s i := by
      simp [listMeanLoop, getKey, getKeyList, asNum, Bind.bind, Except.bind]
    rw [hstep, if_neg hq]
    exact ih (fun x hx => h x (List.mem_cons_of_mem q hx)) s i

/-- Claim C3: wind aggregation invoked with zero station-id overlap between
the speed and direction reading lists (including two empty lists), and
station averaging invoked with zero qualifying readings (all values at
most 0), each fail with the aggregation error (the raised
ZeroDivisionError of the zero-count division, which the spec's taxonomy
names AggregationError) rather than silently returning 0, 0.0 or NaN. -/
theorem claim_C3 :
    (∀ ws wd : List WindReading,
      (∀ s ∈ ws, ∀ d ∈ wd, s.station_id ≠ d.station_id) →
      calc_wind_status ws wd = .error .zeroDivisionError) ∧
    calc_wind_status [] [] = .error .zeroDivisionError ∧
    (∀ vlist : List ℚ, (∀ q ∈ vlist, q ≤ 0) →
      list_mean (vlist.map fun q => JVal.obj [("value", JVal.num q)]) =
        .error .zeroDivisionError) ∧
    list_mean [JVal.obj [("value", JVal.num (-1))]] = .error .zeroDivisionError := by
  have hwind : ∀ ws wd : List WindReading,
      (∀ s ∈ ws, ∀ d ∈ wd, s.station_id ≠ d.station_id) →
      calc_wind_status ws wd = .error .zeroDivisionError := by
    intro ws wd h
    unfold calc_wind_status
    rw [matchedPairs_nil h]
    rfl
  have hmean : ∀ vlist : List ℚ, (∀ q ∈ vlist, q ≤ 0) →
      list_mean (vlist.map fun q => JVal.obj [("value", JVal.num q)]) =
        .error .zeroDivisionError := by
    intro vlist h
    unfold list_mean
    rw [listMeanLoop_nonpos h 0 0]
    rfl
  refine ⟨hwind, hwind [] [] (by simp), hmean, ?_⟩
  have := hmean [-1] (by intro q hq; simp at hq; simp [hq])
  simpa using this

/-! ## Claim C7: most-common-condition voting and its tie-break -/

theorem pyMax_foldl_mem_le (key : String → ℕ) :
    ∀ (xs : List String) (x : String),
      (xs.foldl (fun m y => if key m < key y then y else m) x) ∈ x :: xs ∧
      ∀ y ∈ x :: xs,
        key y ≤ key (xs.foldl (fun m y => if key m < key y then y else m) x) := by
  intro xs
  induction xs with
  | nil => intro x; simp
  | cons z zs ih =>
    intro x
    constructor
    · rw [List.foldl_cons]
      rcases List.mem_cons.mp (ih (if key x < key z then z else x)).1 with hEq | hMem
      · rw [hEq]
        by_cases hxz : key x < key z
        · simp [hxz]
        · simp [hxz]
      · exact List.mem_cons_of_mem _ (List.mem_cons_of_mem _ hMem)
    · intro y hy
      rw [List.foldl_cons]
      rcases List.mem_cons.mp hy with rfl | hy2
      · have h1 : key y ≤ key (if key y < key z then z else y) := by
          by_cases hxz : key y < key z
          · rw [if_pos hxz]
            exact le_of_lt hxz
          · rw [if_neg hxz]
        exact le_trans h1 ((ih _).2 _ (List.mem_cons_self _ _))
      rcases List.mem_cons.mp hy2 with rfl | hy3
      · have h1 : key y ≤ key (if key x < key y then y else x) := by
          by_cases hxz : key x < key y
          · rw [if_pos hxz]
          · rw [if_neg hxz]
            exact not_lt.mp hxz
        exact le_trans h1 ((ih _).2 _ (List.mem_cons_self _ _))
      · exact (ih _).2 y (List.mem_cons_of_mem _ hy3)

/-- Corrected claim for C7: over every nonempty condition list and every
possible iteration order of its distinct conditions, the chosen current
condition is a condition that occurs in the list and attains the maximal
occurrence count; the tie-break among equally-frequent conditions follows
the set iteration order (unspecified in CPython), not first-encounter
order. -/
theorem claim_C7_amended (conds setOrder : List String) (hne : conds ≠ [])
    (hperm : setOrder.Perm conds.dedup) :
    ∃ c, most_common_condition conds setOrder = some c ∧ c ∈ conds ∧
      ∀ c2 ∈ conds, conds.count c2 ≤ conds.count c := by
  have hOrdNe : setOrder ≠ [] := by
    intro h
    subst h
    have : conds.dedup = [] := (List.Perm.nil_eq hperm).symm
    exact hne ((List.dedup_eq_nil conds).mp this)
  rcases setOrder with _ | ⟨x, xs⟩
  · exact absurd rfl hOrdNe
  · have hspec := pyMax_foldl_mem_le (fun c => conds.count c) xs x
    refine ⟨_, rfl, ?_, ?_⟩
    · have hmem := hspec.1
      have : _ ∈ conds.dedup := hperm.subset hmem
      exact List.mem_dedup.mp this
    · intro c2 hc2
      have hc2d : c2 ∈ conds.dedup := List.mem_dedup.mpr hc2
      exact hspec.2 c2 (hperm.symm.subset hc2d)

/-- Counterexample for C7 as stated: ["sunny", "rain"] is a legitimate
iteration order of set(["rain", "sunny"]) (duplicate-free and a
permutation of the distinct conditions), and under it the vote over the
tied list ["rain", "sunny"] returns "sunny", not the first-encountered
"rain". -/
theorem claim_C7_counterexample :
    (["sunny", "rain"] : List String).Nodup ∧
    (["sunny", "rain"] : List String).Perm (["rain", "sunny"] : List String).dedup ∧
    most_common_condition ["rain", "sunny"] ["sunny", "rain"] = some "sunny" ∧
    (some "sunny" : Option String) ≠ some "rain" := by
  refine ⟨by decide, by decide, by decide, by decide⟩

/-- Witness for C7's corrected claim on the untied spec example. -/
theorem claim_C7_witness :
    ((["rain", "rain", "sunny"] : List String) ≠ [] ∧
      (["sunny", "rain"] : List String).Perm
        (["rain", "rain", "sunny"] : List String).dedup) ∧
    ∃ c, most_common_condition ["rain", "rain", "sunny"] ["sunny", "rain"] = some c ∧
      c ∈ (["rain", "rain", "sunny"] : List String) ∧
      ∀ c2 ∈ (["rain", "rain", "sunny"] : List String),
        (["rain", "rain", "sunny"] : List String).count c2 ≤
          (["rain", "rain", "sunny"] : List String).count c :=
  ⟨⟨by decide, by decide⟩,
    claim_C7_amended ["rain", "rain", "sunny"] ["sunny", "rain"] (by decide) (by decide)⟩

/-! ## Claim C6: the rain dataset covers exactly the fixed station
enumeration -/

/-- Claim C6: after the rain dataset is processed, its per-station map has
exactly one entry per station id of the fixed rain-sensor enumeration (no
extra keys, none missing, in enumeration order), whatever stations the
upstream response included; and every enumerated station absent from the
upstream readings carries value 0 (with its own name and location). The
enumeration is a parameter because the RAIN_SENSOR_LIST constant lives in
a const.py revision not present here; the spec's fixed enumeration of
known station ids has distinct ids, the hypothesis below. -/
theorem claim_C6 (station_list : List RainStation) (resp_data : List RainReading)
    (hids : (station_list.map RainStation.id).Nodup) :
    (Rain.process_data station_list resp_data).map Prod.fst =
      station_list.map RainStation.id ∧
    ∀ st ∈ station_list, (∀ r ∈ resp_data, r.station_id ≠ st.id) →
      (Rain.process_data station_list resp_data).lookup st.id =
        some ⟨0, st.name, st.location⟩ := by
  constructor
  · unfold Rain.process_data
    rw [List.map_map]
    apply List.map_congr_left
    intro st _
    simp only [Function.comp_apply]
    cases resp_data.find? fun r => r.station_id == st.id <;> rfl
  · induction station_list with
    | nil => intro st hst; cases hst
    | cons st0 rest ih =>
      intro st hst habsent
      have hfind0 :
          Rain.process_data (st0 :: rest) resp_data =
            (match resp_data.find? fun r => r.station_id == st0.id with
              | some r => (st0.id, ⟨r.value, st0.name, st0.location⟩)
              | none => (st0.id, (⟨0, st0.name, st0.location⟩ : RainEntry))) ::
              Rain.process_data rest resp_data := rfl
      rcases List.mem_cons.mp hst with rfl | hst2
      · have hnone : (resp_data.find? fun r => r.station_id == st.id) = none := by
          rw [List.find?_eq_none]
          intro r hr
          simpa using habsent r hr
        rw [hfind0, hnone]
        simp [List.lookup]
      · have hne : st0.id ≠ st.id := by
          intro hEq
          have : st.id ∈ rest.map RainStation.id := List.mem_map_of_mem _ hst2
          rw [← hEq] at this
          exact (List.nodup_cons.mp hids).1 this
        rw [hfind0]
        have hlk : ∀ y : RainEntry,
            ((st0.id, y) :: Rain.process_data rest resp_data).lookup st.id =
              (Rain.process_data rest resp_data).lookup st.id := by
          intro y
          have hb : (st.id == st0.id) = false := beq_eq_false_iff_ne.mpr (Ne.symm hne)
          simp [List.lookup, hb]
        have ihr := ih (List.nodup_cons.mp hids).2 st hst2 habsent
        cases hfd : resp_data.find? fun r => r.station_id == st0.id <;>
          · simp only [hfd] at *
            rw [hlk]
            exact ihr

/-- Witness for C6 (one enumerated station, empty upstream response). -/
theorem claim_C6_witness :
    ((([⟨"S111", "Newton", JVal.str "loc"⟩] : List RainStation).map
      RainStation.id).Nodup) ∧
    ((Rain.process_data [⟨"S111", "Newton", JVal.str "loc"⟩] []).map Prod.fst =
      ([⟨"S111", "Newton", JVal.str "loc"⟩] : List RainStation).map RainStation.id ∧
    ∀ st ∈ ([⟨"S111", "Newton", JVal.str "loc"⟩] : List RainStation),
      (∀ r ∈ ([] : List RainReading), r.station_id ≠ st.id) →
      (Rain.process_data [⟨"S111", "Newton", JVal.str "loc"⟩] []).lookup st.id =
        some ⟨0, st.name, st.location⟩) :=
  ⟨by simp, claim_C6 [⟨"S111", "Newton", JVal.str "loc"⟩] [] (by simp)⟩

/-! ## Claim C10: non-matching 4-day entries are silently omitted -/

theorem find_isSome_of_any {f : String} :
    (FORECAST_MAP_CONDITION.any fun p => substrB p.1 (strLower f)) = true ↔
      (FORECAST_MAP_CONDITION.find? fun p => substrB p.1 (strLower f)).isSome := by
  rw [List.any_eq_true, List.find?_isSome]

/-- Claim C10: in the 4-day forecast extraction, an upstream entry whose
lowercased description contains none of the keyword substrings of the
condition table is silently skipped — no output entry, no error — so a
successful extraction's output length equals the number of entries whose
description matches at least one table keyword (and can be shorter than
the upstream entry count). -/
theorem claim_C10 (entries out : List JVal)
    (h : Forecast4day.process_data entries = .ok out) :
    out.length = entries.countP entryMatches := by
  induction entries generalizing out with
  | nil =>
    cases h
    rfl
  | cons e rest ih =>
    rw [Forecast4day.process_data, bind_ok] at h
    obtain ⟨fV, hfV, h⟩ := h
    rw [bind_ok] at h
    obtain ⟨f, hf, h⟩ := h
    have hfVs : fV = JVal.str f := by
      cases fV <;> simp [asStr] at hf
      simp [hf]
    subst hfVs
    have hEm : entryMatches e =
        (FORECAST_MAP_CONDITION.any fun p => substrB p.1 (strLower f)) := by
      unfold entryMatches
      rw [hfV]
    cases hfind : FORECAST_MAP_CONDITION.find? fun p => substrB p.1 (strLower f) with
    | none =>
      rw [hfind] at h
      have : entryMatches e = false := by
        rw [hEm]
        rw [Bool.eq_false_iff]
        intro hany
        have := find_isSome_of_any.mp hany
        rw [hfind] at this
        cases this
      rw [List.countP_cons_of_neg _ _ (by simp [this]), ← ih out h]
    | some kc =>
      rw [hfind] at h
      rw [bind_ok] at h
      obtain ⟨ts, _, h⟩ := h
      rw [bind_ok] at h
      obtain ⟨temp, _, h⟩ := h
      rw [bind_ok] at h
      obtain ⟨hi, _, h⟩ := h
      rw [bind_ok] at h
      obtain ⟨lo, _, h⟩ := h
      rw [bind_ok] at h
      obtain ⟨wind, _, h⟩ := h
      rw [bind_ok] at h
      obtain ⟨spd, _, h⟩ := h
      rw [bind_ok] at h
      obtain ⟨spdHi, _, h⟩ := h
      rw [bind_ok] at h
      obtain ⟨dir, _, h⟩ := h
      rw [bind_ok] at h
      obtain ⟨rest2, hrest2, h⟩ := h
      rw [pure_ok] at h
      subst h
      have : entryMatches e = true := by
        rw [hEm, find_isSome_of_any, hfind]
        rfl
      rw [List.countP_cons_of_pos _ _ (by simp [this])]
      simp [ih rest2 hrest2]

/-- Witness for C10: two upstream entries, one matching "cloudy", one whose
description matches no keyword; the output has exactly one entry. -/
theorem claim_C10_witness :
    Forecast4day.process_data
      [JVal.obj
        [("forecast", JVal.str "Cloudy"),
         ("timestamp", JVal.str "2024-01-01T00:00:00+08:00"),
         ("temperature", JVal.obj [("high", JVal.num 32), ("low", JVal.num 26)]),
         ("wind", JVal.obj
           [("speed", JVal.obj [("high", JVal.num 15), ("low", JVal.num 5)]),
            ("direction", JVal.str "NE")])],
       JVal.obj [("forecast", JVal.str "Sunshine and meteors")]] =
      .ok [JVal.obj
        [("datetime", JVal.str "2024-01-01T00:00:00+08:00"),
         ("temperature", JVal.num 32), ("templow", JVal.num 26),
         ("wind_speed", JVal.num 15), ("wind_bearing", JVal.str "NE"),
         ("condition", JVal.str "cloudy")]] ∧
    ([JVal.obj
        [("datetime", JVal.str "2024-01-01T00:00:00+08:00"),
         ("temperature", JVal.num 32), ("templow", JVal.num 26),
         ("wind_speed", JVal.num 15), ("wind_bearing", JVal.str "NE"),
         ("condition", JVal.str "cloudy")]] : List JVal).length =
      ([JVal.obj
        [("forecast", JVal.str "Cloudy"),
         ("timestamp", JVal.str "2024-01-01T00:00:00+08:00"),
         ("temperature", JVal.obj [("high", JVal.num 32), ("low", JVal.num 26)]),
         ("wind", JVal.obj
           [("speed", JVal.obj [("high", JVal.num 15), ("low", JVal.num 5)]),
            ("direction", JVal.str "NE")])],
       JVal.obj [("forecast", JVal.str "Sunshine and meteors")]] : List JVal).countP
        entryMatches := by
  have hrun : Forecast4day.process_data
      [JVal.obj
        [("forecast", JVal.str "Cloudy"),
         ("timestamp", JVal.str "2024-01-01T00:00:00+08:00"),
         ("temperature", JVal.obj [("high", JVal.num 32), ("low", JVal.num 26)]),
         ("wind", JVal.obj
           [("speed", JVal.obj [("high", JVal.num 15), ("low", JVal.num 5)]),
            ("direction", JVal.str "NE")])],
       JVal.obj [("forecast", JVal.str "Sunshine and meteors")]] =
      .ok [JVal.obj
        [("datetime", JVal.str "2024-01-01T00:00:00+08:00"),
         ("temperature", JVal.num 32), ("templow", JVal.num 26),
         ("wind_speed", JVal.num 15), ("wind_bearing", JVal.str "NE"),
         ("condition", JVal.str "cloudy")]] := by
    exact beqE_sound (beqLJ_sound 100) _ _ (by decide)
  exact ⟨hrun, claim_C10 _ _ hrun⟩

/-! ## Claim C4: vector-averaged wind magnitude and bearing -/

theorem bearing_bounds (y x : ℝ) :
    0 ≤ (if degrees (atan2 y x) < 0 then degrees (atan2 y x) + 360
      else degrees (atan2 y x)) ∧
    (if degrees (atan2 y x) < 0 then degrees (atan2 y x) + 360
      else degrees (atan2 y x)) < 360 := by
  have h1 : atan2 y x ≤ Real.pi := Complex.arg_le_pi _
  have h2 : -Real.pi < atan2 y x := Complex.neg_pi_lt_arg _
  have hpi : (0 : ℝ) < Real.pi := Real.pi_pos
  have hd_le : degrees (atan2 y x) ≤ 180 := by
    unfold degrees
    rw [div_le_iff₀ hpi]
    have := mul_le_mul_of_nonneg_right h1 (by norm_num : (0 : ℝ) ≤ 180)
    linarith
  have hd_gt : -180 < degrees (atan2 y x) := by
    unfold degrees
    rw [lt_div_iff₀ hpi]
    have := mul_lt_mul_of_pos_right h2 (by norm_num : (0 : ℝ) < 180)
    linarith
  constructor
  · split
    · linarith
    · linarith
  · split
    · linarith
    · linarith

/-- Claim C4: for every pair of speed and direction reading lists with at
least one matching (speed, direction) pair sharing a station id, the wind
aggregation succeeds with a non-negative magnitude and a bearing in
[0, 360), where the magnitude is the Euclidean norm of the averaged
north-south and east-west components and the bearing is
atan2(ew_avg, ns_avg) in degrees with 360 added once if negative. -/
theorem claim_C4 (ws wd : List WindReading)
    (hp : ∃ s ∈ ws, ∃ d ∈ wd, s.station_id = d.station_id) :
    ∃ r, calc_wind_status ws wd = .ok r ∧
      0 ≤ r.agg_wind_speed ∧
      0 ≤ r.agg_wind_direction ∧ r.agg_wind_direction < 360 ∧
      r.agg_wind_speed = Real.sqrt (r.ns_avg ^ 2 + r.ew_avg ^ 2) ∧
      r.agg_wind_direction =
        (if degrees (atan2 r.ew_avg r.ns_avg) < 0 then
          degrees (atan2 r.ew_avg r.ns_avg) + 360
         else degrees (atan2 r.ew_avg r.ns_avg)) := by
  obtain ⟨s, hs, d, hd, hid⟩ := hp
  have hmem : (s, d) ∈ matchedPairs ws wd := by
    unfold matchedPairs
    rw [List.mem_flatMap]
    refine ⟨s, hs, ?_⟩
    rw [List.mem_map]
    refine ⟨d, ?_, rfl⟩
    rw [List.mem_filter]
    exact ⟨hd, by simpa using hid⟩
  have hlen : ¬(matchedPairs ws wd).length = 0 := by
    rw [List.length_eq_zero]
    exact List.ne_nil_of_mem hmem
  rcases hok : calc_wind_status ws wd with e | r
  · exfalso
    simp only [calc_wind_status] at hok
    rw [if_neg hlen] at hok
    cases hok
  · refine ⟨r, rfl, ?_⟩
    simp only [calc_wind_status] at hok
    rw [if_neg hlen] at hok
    have hr := Except.ok.inj hok
    subst hr
    exact ⟨Real.sqrt_nonneg _, (bearing_bounds _ _).1, (bearing_bounds _ _).2, rfl, rfl⟩

/-- Witness for C4: one speed reading and one direction reading sharing
station id "S1". -/
theorem claim_C4_witness :
    (∃ s ∈ ([⟨"S1", 1⟩] : List WindReading),
      ∃ d ∈ ([⟨"S1", 90⟩] : List WindReading), s.station_id = d.station_id) ∧
    (∃ r, calc_wind_status [⟨"S1", 1⟩] [⟨"S1", 90⟩] = .ok r ∧
      0 ≤ r.agg_wind_speed ∧
      0 ≤ r.agg_wind_direction ∧ r.agg_wind_direction < 360 ∧
      r.agg_wind_speed = Real.sqrt (r.ns_avg ^ 2 + r.ew_avg ^ 2) ∧
      r.agg_wind_direction =
        (if degrees (atan2 r.ew_avg r.ns_avg) < 0 then
          degrees (atan2 r.ew_avg r.ns_avg) + 360
         else degrees (atan2 r.ew_avg r.ns_avg))) :=
  ⟨by decide, claim_C4 [⟨"S1", 1⟩] [⟨"S1", 90⟩] (by decide)⟩

/-! ## Claim C2: structural-lookup failures and the update cycle -/

/-- Corrected claim for C2: when a dataset's extraction raises (the error
result), the update loop aborts at that dataset — every dataset after it
goes unprocessed and no consolidated response is assembled — and the
coordinator converts the exception into UpdateFailed at its boundary, so
nothing crosses the orchestrator boundary unhandled; but there is no
per-dataset catch and the failing dataset is not simply left absent. -/
theorem claim_C2_amended (pre post : List (String × Except PyErr Unit))
    (name : String) (e : PyErr) (hpre : ∀ p ∈ pre, p.2 = .ok ()) :
    asyncUpdateLoop (pre ++ (name, .error e) :: post) = .error e ∧
    coordinatorUpdate (pre ++ (name, .error e) :: post) =
      .error ⟨"Update failed: " ++ pyErrMsg e⟩ := by
  have hloop : asyncUpdateLoop (pre ++ (name, .error e) :: post) = .error e := by
    induction pre with
    | nil => rfl
    | cons p t ih =>
      obtain ⟨n0, r0⟩ := p
      have h0 : r0 = .ok () := hpre (n0, r0) (List.mem_cons_self _ _)
      subst h0
      have iht := ih fun q hq => hpre q (List.mem_cons_of_mem _ hq)
      simp [asyncUpdateLoop, Bind.bind, Except.bind, iht]
  refine ⟨hloop, ?_⟩
  unfold coordinatorUpdate
  rw [hloop]

/-- The upstream 2-hour response of the C2 counterexample: a healthy
response whose "items" key is missing. -/
def c2BadResp : JVal := JVal.obj [("api_info", JVal.obj [("status", JVal.str "healthy")])]

/-- A well-formed 4-day upstream entry list for the C2 counterexample. -/
def c2GoodResp : List JVal :=
  [JVal.obj
    [("forecast", JVal.str "Thundery Showers"),
     ("timestamp", JVal.str "2024-01-02T00:00:00+08:00"),
     ("temperature", JVal.obj [("high", JVal.num 33), ("low", JVal.num 25)]),
     ("wind", JVal.obj
       [("speed", JVal.obj [("high", JVal.num 20), ("low", JVal.num 10)]),
        ("direction", JVal.str "S")])]]

/-- Counterexample for C2 as stated: with "items" missing from the 2-hour
response, Forecast2hr.process_data raises KeyError to its caller; the
4-day dataset alone would succeed, yet the whole cycle fails with
UpdateFailed, so no dataset of the cycle is published — the failure is
not confined to the one dataset. -/
theorem claim_C2_counterexample :
    Forecast2hr.process_data c2BadResp = .error (.keyError "items") ∧
    Forecast4day.process_data c2GoodResp =
      .ok [JVal.obj
        [("datetime", JVal.str "2024-01-02T00:00:00+08:00"),
         ("temperature", JVal.num 33), ("templow", JVal.num 25),
         ("wind_speed", JVal.num 20), ("wind_bearing", JVal.str "S"),
         ("condition", JVal.str "lightning-rainy")]] ∧
    coordinatorUpdate
      [("Forecast2hr", (Forecast2hr.process_data c2BadResp).map fun _ => ()),
       ("Forecast4day", (Forecast4day.process_data c2GoodResp).map fun _ => ())] =
      .error ⟨"Update failed: KeyError: items"⟩ :=
  ⟨beqE_sound (beqF2R_sound 100) _ _ (by decide),
   beqE_sound (beqLJ_sound 100) _ _ (by decide),
   by decide⟩

/-- Witness for C2's corrected claim: a cycle of Temperature (fine),
Forecast2hr (KeyError) and Rain (fine) aborts wholesale. -/
theorem claim_C2_witness :
    (∀ p ∈ ([("Temperature", Except.ok ())] : List (String × Except PyErr Unit)),
      p.2 = .ok ()) ∧
    (asyncUpdateLoop
      ([("Temperature", Except.ok ())] ++
        ("Forecast2hr", Except.error (.keyError "items")) :: [("Rain", Except.ok ())]) =
      .error (.keyError "items") ∧
    coordinatorUpdate
      ([("Temperature", Except.ok ())] ++
        ("Forecast2hr", Except.error (.keyError "items")) :: [("Rain", Except.ok ())]) =
      .error ⟨"Update failed: " ++ pyErrMsg (.keyError "items")⟩) :=
  ⟨by decide,
   claim_C2_amended [("Temperature", Except.ok ())] [("Rain", Except.ok ())]
     "Forecast2hr" (.keyError "items") (by decide)⟩

/-! ## Claim C1: primary extraction vs secondary extraction of the same
moment -/

theorem lookupOr_ok {m : List (String × String)} {k v : String}
    (h : lookupOr m k = .ok v) : m.lookup k = some v := by
  unfold lookupOr at h
  cases hl : m.lookup k with
  | none =>
    rw [hl] at h
    exact Except.noConfusion
      (h : (Except.error (PyErr.keyError k) : Except PyErr String) = .ok v)
  | some w =>
    rw [hl] at h
    have hw : w = v :=
      Except.ok.inj (h : (Except.ok w : Except PyErr String) = .ok v)
    rw [hw]

set_option maxRecDepth 16384 in
theorem desc_inv_agree {code d : String}
    (h : lookupOr CODE_DESCRIPTION_MAP code = .ok d) :
    lookupOr INV_FORECAST_ICON_MAP_CONDITION code = .ok d := by
  have hl := lookupOr_ok h
  have hm : (code, d) ∈ CODE_DESCRIPTION_MAP := lookup_mem hl
  have hall : ∀ p ∈ CODE_DESCRIPTION_MAP,
      INV_FORECAST_ICON_MAP_CONDITION.lookup p.1 = some p.2 := by decide
  have h2 : INV_FORECAST_ICON_MAP_CONDITION.lookup code = some d :=
    hall (code, d) hm
  unfold lookupOr
  rw [h2]

theorem c1_core :
    ∀ (areaL : List JVal) (es : List AreaAll) (fes : List JVal)
      (af2 : List (JVal × JVal)),
    mapE mkAreaAll areaL = .ok es →
    mapE (fun e => do
      let d ← lookupOr CODE_DESCRIPTION_MAP e.code
      pure (JVal.obj [("area", e.name), ("forecast", JVal.str d)])) es = .ok fes →
    mapE (fun a => do
      let n ← getKey a "Name"
      let f ← getKey a "Forecast"
      let fs ← asStr f
      let c ← lookupOr INV_FORECAST_ICON_MAP_CONDITION fs
      pure (n, JVal.str c)) areaL = .ok af2 →
    ∀ pre : List JVal,
    ∃ af1, buildAreaForecast
        (JVal.arr (pre ++ es.map fun e =>
          JVal.obj [("name", e.name),
            ("label_location",
              JVal.obj [("latitude", e.lat), ("longitude", e.lon)])]))
        fes pre.length = .ok af1 ∧
      af1.map Prod.fst = af2.map Prod.fst ∧
      List.Forall₂ (fun p q : JVal × JVal => ∃ t loc, q.2 = JVal.str t ∧
        p.2 = JVal.obj [("forecast", JVal.str t), ("location", loc)]) af1 af2 := by
  intro areaL
  induction areaL with
  | nil =>
    intro es fes af2 h1 h2 h3 pre
    cases h1
    cases h2
    cases h3
    exact ⟨[], rfl, rfl, List.Forall₂.nil⟩
  | cons a areaT ih =>
    intro es fes af2 h1 h2 h3 pre
    simp only [mapE, bind_ok, pure_ok] at h1 h3
    obtain ⟨e0, he0, esT, hesT, rfl⟩ := h1
    obtain ⟨pq0, hpq0, af2T, haf2T, rfl⟩ := h3
    simp only [mapE, bind_ok, pure_ok] at h2
    obtain ⟨fe0, hfe0, fesT, hfesT, rfl⟩ := h2
    simp only [mkAreaAll, bind_ok, pure_ok] at he0
    obtain ⟨nameV, hname, latV, hlat, lonV, hlon, codeJ, hcodeJ, codeS, hcodeS,
      condS, hcondS, rfl⟩ := he0
    simp only [bind_ok, pure_ok] at hfe0 hpq0
    obtain ⟨d0, hd0, rfl⟩ := hfe0
    obtain ⟨n2, hn2, f2, hf2, fs2, hfs2, c2, hc2, rfl⟩ := hpq0
    rw [hname] at hn2
    cases hn2
    rw [hcodeJ] at hf2
    cases hf2
    rw [hcodeS] at hfs2
    cases hfs2
    have hd0c : lookupOr CODE_DESCRIPTION_MAP codeS = .ok d0 := hd0
    have hinv : lookupOr INV_FORECAST_ICON_MAP_CONDITION codeS = .ok d0 :=
      desc_inv_agree hd0c
    rw [hinv] at hc2
    cases hc2
    obtain ⟨af1T, hbT, hmapT, hrelT⟩ :=
      ih esT fesT af2T hesT hfesT haf2T
        (pre ++ [JVal.obj [("name", nameV),
          ("label_location",
            JVal.obj [("latitude", latV), ("longitude", lonV)])]])
    have hbT2 : buildAreaForecast
        (JVal.arr (pre ++
          JVal.obj [("name", nameV),
            ("label_location",
              JVal.obj [("latitude", latV), ("longitude", lonV)])] ::
          (esT.map fun e =>
            JVal.obj [("name", e.name),
              ("label_location",
                JVal.obj [("latitude", e.lat), ("longitude", e.lon)])])))
        fesT (pre.length + 1) = .ok af1T := by
      simp only [List.append_assoc, List.singleton_append, List.length_append,
        List.length_singleton] at hbT
      exact hbT
    have ha : getKey (JVal.obj [("area", nameV), ("forecast", JVal.str d0)])
        "area" = .ok nameV := by simp [getKey, getKeyList]
    have hfc : getKey (JVal.obj [("area", nameV), ("forecast", JVal.str d0)])
        "forecast" = .ok (JVal.str d0) := by simp [getKey, getKeyList]
    have hmd : getIdx (JVal.arr (pre ++
        JVal.obj [("name", nameV),
          ("label_location",
            JVal.obj [("latitude", latV), ("longitude", lonV)])] ::
        (esT.map fun e =>
          JVal.obj [("name", e.name),
            ("label_location",
              JVal.obj [("latitude", e.lat), ("longitude", e.lon)])])))
        pre.length = .ok (JVal.obj [("name", nameV),
          ("label_location",
            JVal.obj [("latitude", latV), ("longitude", lonV)])]) := by
      simp only [getIdx]
      rw [List.getElem?_append_right (Nat.le_refl _)]
      simp
    have hloc : getKey (JVal.obj [("name", nameV),
        ("label_location",
          JVal.obj [("latitude", latV), ("longitude", lonV)])])
        "label_location" =
        .ok (JVal.obj [("latitude", latV), ("longitude", lonV)]) := by
      simp [getKey, getKeyList]
    have hlatk : getKey (JVal.obj [("latitude", latV), ("longitude", lonV)])
        "latitude" = .ok latV := by simp [getKey, getKeyList]
    have hlonk : getKey (JVal.obj [("latitude", latV), ("longitude", lonV)])
        "longitude" = .ok lonV := by simp [getKey, getKeyList]
    refine ⟨(nameV, JVal.obj [("forecast", JVal.str d0),
        ("location", JVal.obj [("latitude", latV), ("longitude", lonV)])]) ::
        af1T, ?_, ?_, ?_⟩
    · simp only [List.map_cons, buildAreaForecast, ha, hfc, hmd, hloc, hlatk,
        hlonk, hbT2, Bind.bind, Except.bind]
      rfl
    · simp only [List.map_cons, Prod.fst]
      rw [hmapT]
    · exact List.Forall₂.cons
        ⟨d0, JVal.obj [("latitude", latV), ("longitude", lonV)], rfl, rfl⟩ hrelT

/-- Corrected claim for C1: for every scraped document, running the
simulated primary-shaped JSON through the primary extraction path and the
scraped document itself through the secondary extraction path yields
area_forecast maps with the same keys in the same order, and for each area
the secondary value is exactly the condition-description string stored in
the "forecast" field of the primary value; but the Dataset Results are not
identical, because the primary path maps each area to a record with
forecast and location while the secondary path maps it to the bare
condition string. -/
theorem claim_C1_amended (ch doc : JVal) (r1 r2 : Forecast2hrResult)
    (hgen : gen_2_hour_weather_forecast ch = .ok doc)
    (h1 : Forecast2hr.process_data doc = .ok r1)
    (h2 : Forecast2hr.process_secondary_data
      (JVal.obj [("Channel2HrForecast", ch)]) = .ok r2) :
    r1.area_forecast.map Prod.fst = r2.area_forecast.map Prod.fst ∧
    List.Forall₂ (fun p q : JVal × JVal => ∃ t loc, q.2 = JVal.str t ∧
      p.2 = JVal.obj [("forecast", JVal.str t), ("location", loc)])
      r1.area_forecast r2.area_forecast := by
  simp only [gen_2_hour_weather_forecast, bind_ok, pure_ok] at hgen
  obtain ⟨item, hitem, fi, hfi, dts, hdts, wf, hwf, areaV, hareaV, areaL,
    hareaL, locs, hlocs, es, hes, vt, hvt, fes, hfes, rfl⟩ := hgen
  simp only [Forecast2hr.process_secondary_data, bind_ok, pure_ok] at h2
  obtain ⟨ch2, hch2, item2, hitem2, fi2, hfi2, dts2, hdts2, wf2, hwf2, areaV2,
    hareaV2, areaL2, hareaL2, conds2, hconds2, hmatch2⟩ := h2
  have hch2c : getKey (JVal.obj [("Channel2HrForecast", ch)])
      "Channel2HrForecast" = .ok ch := by simp [getKey, getKeyList]
  rw [hch2c] at hch2
  cases hch2
  rw [hitem] at hitem2
  cases hitem2
  rw [hfi] at hfi2
  cases hfi2
  rw [hdts] at hdts2
  cases hdts2
  rw [hwf] at hwf2
  cases hwf2
  rw [hareaV] at hareaV2
  cases hareaV2
  rw [hareaL] at hareaL2
  cases hareaL2
  cases hmx2 : pyMax (fun c => conds2.count c) conds2.dedup with
  | none =>
    rw [hmx2] at hmatch2
    simp [Bind.bind, Except.bind] at hmatch2
  | some c2 =>
  rw [hmx2] at hmatch2
  simp only [bind_ok, pure_ok] at hmatch2
  obtain ⟨cur2, hcur2, af2, haf2, hr2⟩ := hmatch2
  simp only [Forecast2hr.process_data, bind_ok, pure_ok] at h1
  obtain ⟨itemsV, hitems, item0, hitem0, ts1, hts1, metaV, hmetaV, forV, hforV,
    forL, hforL, condJs, hcondJs, conds1, hconds1, hmatch1⟩ := h1
  simp [getKey, getKeyList] at hitems
  subst hitems
  simp [getIdx] at hitem0
  subst hitem0
  simp [getKey, getKeyList] at hts1
  simp [getKey, getKeyList] at hmetaV
  subst hmetaV
  simp [getKey, getKeyList] at hforV
  subst hforV
  simp [asArr] at hforL
  subst hforL
  cases hmx1 : pyMax (fun c => conds1.count c) conds1.dedup with
  | none =>
    rw [hmx1] at hmatch1
    simp [Bind.bind, Except.bind] at hmatch1
  | some c1 =>
  rw [hmx1] at hmatch1
  simp only [bind_ok, pure_ok] at hmatch1
  obtain ⟨cur1, hcur1, af1, haf1, hr1⟩ := hmatch1
  obtain ⟨af1c, hbuild, hmap, hrel⟩ := c1_core areaL es fes af2 hes hfes haf2 []
  simp only [List.nil_append, List.length_nil] at hbuild
  rw [hbuild] at haf1
  cases haf1
  subst hr1
  subst hr2
  exact ⟨hmap, hrel⟩

/-- Scraped Channel2HrForecast fixture for C1, with one area. -/
def c1Ch : JVal := JVal.obj [("Item", JVal.obj
  [("ForecastIssue", JVal.obj
    [("Date", JVal.str "12 Oct 2022"), ("Time", JVal.str "2.30 pm"),
     ("DateTimeStr", JVal.str "2.30 pm 12 Oct")]),
   ("ValidTime", JVal.str "2.30 pm to 4.30 pm"),
   ("WeatherForecast", JVal.obj [("Area", JVal.arr [JVal.obj
     [("LocationName", JVal.str "Ang Mo Kio"), ("Name", JVal.str "Ang Mo Kio"),
      ("Lat", JVal.num 1), ("Lon", JVal.num 103),
      ("Forecast", JVal.str "RA")]])])])]

/-- The primary-shaped document the adapter simulates from c1Ch. -/
def c1Doc : JVal := JVal.obj
  [("api_info", JVal.obj [("status", JVal.str "healthy")]),
   ("area_metadata", JVal.arr [JVal.obj
     [("name", JVal.str "Ang Mo Kio"),
      ("label_location", JVal.obj
        [("latitude", JVal.num 1), ("longitude", JVal.num 103)])]]),
   ("items", JVal.arr [JVal.obj
     [("update_timestamp", JVal.str "2.30 pm 12 Oct"),
      ("timestamp", JVal.str "2.30 pm 12 Oct"),
      ("valid_period", JVal.str "2.30 pm to 4.30 pm"),
      ("forecasts", JVal.arr [JVal.obj
        [("area", JVal.str "Ang Mo Kio"),
         ("forecast", JVal.str "Moderate Rain")]])]])]

/-- The primary path's Dataset Result on c1Doc. -/
def c1R1 : Forecast2hrResult :=
  ⟨JVal.str "2.30 pm 12 Oct", "Moderate Rain",
    [(JVal.str "Ang Mo Kio", JVal.obj
      [("forecast", JVal.str "Moderate Rain"),
       ("location", JVal.obj
         [("latitude", JVal.num 1), ("longitude", JVal.num 103)])])]⟩

/-- The secondary path's Dataset Result on c1Ch. -/
def c1R2 : Forecast2hrResult :=
  ⟨JVal.str "2.30 pm 12 Oct", "Moderate Rain",
    [(JVal.str "Ang Mo Kio", JVal.str "Moderate Rain")]⟩

set_option maxRecDepth 100000 in
/-- Counterexample for C1 as stated: for the same real-world moment (the
scraped document c1Ch and the primary-shaped document the adapter
simulates from it), the two extraction paths produce different
area_forecast maps: the primary maps the area to a forecast/location
record, the secondary to the bare condition string. -/
theorem claim_C1_counterexample :
    gen_2_hour_weather_forecast c1Ch = .ok c1Doc ∧
    Forecast2hr.process_data c1Doc = .ok c1R1 ∧
    Forecast2hr.process_secondary_data
      (JVal.obj [("Channel2HrForecast", c1Ch)]) = .ok c1R2 ∧
    c1R1.area_forecast ≠ c1R2.area_forecast := by
  refine ⟨beqE_sound (beqJF_sound 100) _ _ (by decide),
    beqE_sound (beqF2R_sound 100) _ _ (by decide),
    beqE_sound (beqF2R_sound 100) _ _ (by decide), ?_⟩
  intro hEq
  simp [c1R1, c1R2] at hEq

set_option maxRecDepth 100000 in
/-- Witness for C1's corrected claim at the c1Ch fixture. -/
theorem claim_C1_witness :
    c1R1.area_forecast.map Prod.fst = c1R2.area_forecast.map Prod.fst ∧
    List.Forall₂ (fun p q : JVal × JVal => ∃ t loc, q.2 = JVal.str t ∧
      p.2 = JVal.obj [("forecast", JVal.str t), ("location", loc)])
      c1R1.area_forecast c1R2.area_forecast :=
  claim_C1_amended c1Ch c1Doc c1R1 c1R2
    (beqE_sound (beqJF_sound 100) _ _ (by decide))
    (beqE_sound (beqF2R_sound 100) _ _ (by decide))
    (beqE_sound (beqF2R_sound 100) _ _ (by decide))

end NeaSgWeather
